import Mathlib

/-!
Verification development for the AutoFocus connector
(`autofocus_connector.py`).

The connector is a sequence of synchronous remote calls: a query builder
(`_construct_body`), a search-and-tag-aggregation step plus per-tag
enrichment (`_samples_search_tag`), a connectivity test
(`_test_connectivity`), the hunt pipeline (`_hunt_action`), and an action
dispatcher (`handle_action`).  We embed these shallowly: remote services
become an explicit environment of response values, the Phantom
`ActionResult` becomes a record threaded through the pipeline, and each
remote call issued is recorded in a trace so that "fails before any remote
call" claims are statable.

Phantom status values: `phantom.APP_SUCCESS` is truthy and
`phantom.APP_ERROR` is falsy; we model a status as `Bool` with `true` for
success.  `phantom.is_fail x` is `!x`.
-/

/-- One child predicate of the search query body:
`{"field": field, "operator": "contains", "value": value}`. -/
structure QueryChild where
  field : String
  operator : String
  value : String
deriving DecidableEq, Repr

/-- The query clause `{"operator": "all", "children": [...]}`. -/
structure QueryClause where
  operator : String
  children : List QueryChild
deriving DecidableEq, Repr

/-- The search request body built by `_construct_body`.  The Python dict
keys are `scope`, `from`, `size`, `sort` and `query`; `sort` is always the
nested dict `{"create_date": {"order": "desc"}}`, modelled here by its two
strings. -/
structure SearchBody where
  scope : String
  start : Nat
  size : Nat
  sort_field : String
  sort_order : String
  query : QueryClause
deriving DecidableEq, Repr

/-- Embeds `AutoFocusConnector._construct_body(value, field, start, size, scope)`:
builds the search body dict. -/
def construct_body (value : String) (field : String) (start : Nat)
    (size : Nat) (scope : String) : SearchBody :=
  { scope := scope
    start := start
    size := size
    sort_field := "create_date"
    sort_order := "desc"
    query := { operator := "all"
               children := [{ field := field, operator := "contains", value := value }] } }

/-- The four fields of a tag-detail payload read by the enrichment loop:
`r.json["tag"]["description" | "tag_name" | "public_tag_name" | "count"]`.
The upstream response may carry more fields; the code reads exactly
these. -/
structure TagData where
  description : String
  tag_name : String
  public_tag_name : String
  count : Nat
deriving DecidableEq, Repr

/-- The HTTP-level outcome of a remote response, as seen by
`_validate_api_call`: `ok` is whether `raise_for_status()` passes (2xx),
`errText` is `str(e)` of the exception it raises otherwise. -/
structure ApiResponse where
  ok : Bool
  errText : String
deriving DecidableEq, Repr

/-- A tag-detail response from `self._afapi.tag(tagname=...)`: HTTP outcome
plus the `json["tag"]` payload (meaningful when `ok`). -/
structure TagResponse where
  http : ApiResponse
  tag : TagData
deriving DecidableEq, Repr

/-- An export response from `self._afapi.export()`: HTTP outcome plus the
`json["bucket_info"]` fields the connectivity test reads. -/
structure ExportResponse where
  http : ApiResponse
  daily_points_remaining : Nat
  daily_points : Nat
deriving DecidableEq, Repr

/-- One search hit: the code looks up `i["_source"]` and, when the key
`"tag"` is present, iterates `i["_source"]["tag"]` as a list of tag
identifiers.  `tag = none` models a `_source` without a `"tag"` key. -/
structure Hit where
  tag : Option (List String)
deriving DecidableEq, Repr

/-- The Phantom `ActionResult`, restricted to what the connector touches:
a status, a message, the `add_data` list and the one summary key
`total_tags_matched` written by `update_summary`. -/
structure ActionResult where
  status : Bool := false
  message : String := ""
  data : List TagData := []
  total_tags_matched : Option Nat := none
deriving DecidableEq, Repr

/-- Embeds `action_result.set_status(status, message)`; the Phantom default message
argument is the empty string. -/
def ActionResult.set_status (ar : ActionResult) (s : Bool) (msg : String := "") :
    ActionResult :=
  { ar with status := s, message := msg }

/-- Embeds `action_result.add_data(d)`: appends one data item. -/
def ActionResult.add_data (ar : ActionResult) (d : TagData) : ActionResult :=
  { ar with data := ar.data ++ [d] }

/-- Embeds `action_result.get_data_size()`. -/
def ActionResult.get_data_size (ar : ActionResult) : Nat :=
  ar.data.length

/-- Embeds `action_result.update_summary({"total_tags_matched": n})`. -/
def ActionResult.update_summary (ar : ActionResult) (n : Nat) : ActionResult :=
  { ar with total_tags_matched := some n }

/-- Embeds `AutoFocusConnector._validate_api_call(response, action_result)`:
returns `APP_SUCCESS` when `raise_for_status()` passes; otherwise returns
`action_result.set_status(APP_ERROR, str(e))`, whose value is the falsy
error status, having recorded the error on the action result. -/
def validate_api_call (r : ApiResponse) (ar : ActionResult) :
    Bool × ActionResult :=
  if r.ok then (true, ar)
  else (false, ar.set_status false r.errText)

/-- A remote call issued by the connector, recorded in a trace. -/
inductive RemoteCall
  | search (body : SearchBody)
  | tagDetail (tagname : String)
  | exportStatus
deriving DecidableEq, Repr

/-- The environment of remote behaviour for one action invocation:
whether `_init_api` succeeds (and `str(e)` if not), the search outcome for
a given request body (`Except.error e` models an exception raised while
iterating `samples_search_results`, whose pages are otherwise the list of
hit lists), the tag-detail response per tag name, and the export
response. -/
structure Env where
  initOk : Bool
  initErr : String
  search : SearchBody → Except String (List (List Hit))
  tagResp : String → TagResponse
  «export» : ExportResponse

/-- Python `set.add`: insert a tag identifier unless already present.
Insertion order is kept so that set iteration can be modelled as list
iteration; the permutation theorems show nothing depends on it. -/
def setAdd (s : List String) (t : String) : List String :=
  if t ∈ s then s else s ++ [t]

/-- The inner loop of the aggregation phase: for one hit, if it carries a
`"tag"` list, add each tag identifier to the running set. -/
def addHitTags (s : List String) (h : Hit) : List String :=
  match h.tag with
  | some tags => tags.foldl setAdd s
  | none => s

/-- The aggregation loops of `_samples_search_tag` (lines 106-114): for
each response page, for each hit, collect tag identifiers into `tag_set`. -/
def collectTags (pages : List (List Hit)) : List String :=
  pages.foldl (fun s page => page.foldl addHitTags s) []

/-- One iteration of the enrichment loop (lines 118-128): issue the
tag-detail call, validate it (`continue` on failure, after
`_validate_api_call` has set the error status), otherwise project the four
fields and `add_data`. -/
def enrichTag (env : Env) (acc : ActionResult × List RemoteCall) (tag : String) :
    ActionResult × List RemoteCall :=
  let r := env.tagResp tag
  let calls := acc.2 ++ [RemoteCall.tagDetail tag]
  let (ok, ar) := validate_api_call r.http acc.1
  if ok then
    (ar.add_data { description := r.tag.description
                   tag_name := r.tag.tag_name
                   public_tag_name := r.tag.public_tag_name
                   count := r.tag.count }, calls)
  else (ar, calls)

/-- The whole enrichment loop over the collected tag set. -/
def enrichTags (env : Env) (tags : List String) (ar : ActionResult)
    (calls : List RemoteCall) : ActionResult × List RemoteCall :=
  tags.foldl (enrichTag env) (ar, calls)

/-- Embeds `AutoFocusConnector._samples_search_tag(body, action_result)`:
search, aggregate tags, enrich each unique tag, then record the summary.
Returns the Phantom status, the action result and the trace of remote
calls issued. -/
def samples_search_tag (env : Env) (body : SearchBody) (ar : ActionResult) :
    Bool × ActionResult × List RemoteCall :=
  match env.search body with
  | Except.error e => (false, ar.set_status false e, [RemoteCall.search body])
  | Except.ok pages =>
    let tag_set := collectTags pages
    let res := enrichTags env tag_set ar [RemoteCall.search body]
    let ar := res.1.update_summary res.1.get_data_size
    (true, ar, res.2)

/-- Embeds `AutoFocusConnector.SCOPE_MAP` as the dict lookup used at
`scope = self.SCOPE_MAP[scope]`. -/
def SCOPE_MAP_lookup (s : String) : Option String :=
  if s = "all samples" then some "global"
  else if s = "my samples" then some "private"
  else if s = "public samples" then some "public"
  else none

/-- Embeds `self.SCOPE_MAP.values()`. -/
def SCOPE_MAP_values : List String := ["global", "private", "public"]

/-- Modelled from the spec: the message template `AF_ERR_INVALID_SCOPE`
lives in `autofocus_consts.py`, which is not part of the sources here;
the spec requires only that the message "names the offending value". -/
def AF_ERR_INVALID_SCOPE (scope : String) : String :=
  "Invalid scope: " ++ scope

/-- Python `str.lower()`, modelled characterwise (the scope vocabulary is
ASCII, where this agrees with Python). -/
def strLower (s : String) : String :=
  String.mk (s.data.map Char.toLower)

/-- The hunt parameters the pipeline reads: the optional `scope` entry and
the indicator value stored under the value key of the action (`hash`, `ip`,
`domain` or `url`). -/
structure HuntParam where
  scope : Option String := none
  value : String
deriving DecidableEq, Repr

/-- Embeds `AutoFocusConnector._hunt_action(field, value_type, param)`:
initialize the API, resolve the scope through `SCOPE_MAP` (on `KeyError`
the membership test of `scope` in `SCOPE_MAP.values()` guards only a
`pass`, so the error return fires unconditionally — kept faithfully),
build the body with `start = 0`, `size = 4000`, run the
search/aggregation/enrichment, and finally set `APP_SUCCESS`.  Returns the
Phantom status, the action result and the trace of remote calls issued. -/
def hunt_action (env : Env) (field : String) (param : HuntParam) :
    Bool × ActionResult × List RemoteCall :=
  let ar : ActionResult := {}
  if !env.initOk then
    let ar := ar.set_status false env.initErr
    (ar.status, ar, [])
  else
    let scope := strLower (param.scope.getD "All Samples")
    match SCOPE_MAP_lookup scope with
    | none =>
      -- `if scope in self.SCOPE_MAP.values(): pass` has no effect
      let ar := ar.set_status false (AF_ERR_INVALID_SCOPE scope)
      (ar.status, ar, [])
    | some scope =>
      let value := param.value
      let start := 0
      let size := 4000
      let body := construct_body value field start size scope
      let res := samples_search_tag env body ar
      if !res.1 then (res.2.1.status, res.2.1, res.2.2)
      else
        let ar := res.2.1.set_status true
        (ar.status, ar, res.2.2)

/-- Embeds `AutoFocusConnector._test_connectivity()`: returns the connector-level
status, the final status message and the ordered list of progress messages
saved with `save_progress` / `set_status_save_progress`. -/
def test_connectivity (env : Env) : Bool × String × List String :=
  let ar : ActionResult := {}
  let progress := ["Starting connectivity test"]
  if !env.initOk then
    -- `_init_api` failed; `set_status_save_progress(APP_ERROR, ...)`
    (false, "Connectivity test failed", progress ++ ["Connectivity test failed"])
  else
    let progress := progress ++ ["Making a request to PAN AutoFocus"]
    let r := env.«export»
    let (ret_val, ar) := validate_api_call r.http ar
    if !ret_val then
      (false, "", progress ++ [ar.message, "Test Connectivity failed"])
    else
      let points := toString r.daily_points_remaining ++ "/" ++
        toString r.daily_points ++ " daily points remaining"
      (true, "Connectivity test passed",
        progress ++ [points, "Connectivity test passed"])

/-- The handlers `handle_action` can dispatch to. -/
inductive HandlerCall
  | testConnectivity
  | huntFile
  | huntIp
  | huntDomain
  | huntUrl
  | getReport
deriving DecidableEq, Repr

/-- Embeds `phantom.ACTION_ID_TEST_ASSET_CONNECTIVITY`, a constant of the host
SDK (an external collaborator); its exact value is irrelevant to the
dispatcher theorems. -/
def ACTION_ID_TEST_ASSET_CONNECTIVITY : String := "test_asset_connectivity"

/-- The action identifiers `handle_action` recognizes. -/
def knownActions : List String :=
  [ACTION_ID_TEST_ASSET_CONNECTIVITY, "hunt_file", "hunt_ip", "hunt_domain",
   "hunt_url", "get_report"]

/-- Embeds `AutoFocusConnector.handle_action(param)`: `ret_val` starts as
`APP_SUCCESS` and is replaced by the status of the invoked handler; the
handlers themselves are abstracted as `run` since each is modelled
separately.  Returns the status and the list of handlers invoked. -/
def handle_action (action : String) (run : HandlerCall → Bool) :
    Bool × List HandlerCall :=
  if action = ACTION_ID_TEST_ASSET_CONNECTIVITY then
    (run HandlerCall.testConnectivity, [HandlerCall.testConnectivity])
  else if action = "hunt_file" then (run HandlerCall.huntFile, [HandlerCall.huntFile])
  else if action = "hunt_ip" then (run HandlerCall.huntIp, [HandlerCall.huntIp])
  else if action = "hunt_domain" then (run HandlerCall.huntDomain, [HandlerCall.huntDomain])
  else if action = "hunt_url" then (run HandlerCall.huntUrl, [HandlerCall.huntUrl])
  else if action = "get_report" then (run HandlerCall.getReport, [HandlerCall.getReport])
  else (true, [])

/-- Whether the tag-detail call for `tag` passes `_validate_api_call`. -/
def tagOk (env : Env) (tag : String) : Bool :=
  (env.tagResp tag).http.ok

/-- Record that the enrichment loop projects out of a tag-detail
response. -/
def tagRecordOf (env : Env) (tag : String) : TagData :=
  { description := (env.tagResp tag).tag.description
    tag_name := (env.tagResp tag).tag.tag_name
    public_tag_name := (env.tagResp tag).tag.public_tag_name
    count := (env.tagResp tag).tag.count }

/-- The six scope strings the inbound interface accepts (§6 of the spec):
the three `SCOPE_MAP` keys and the three already-canonical values. -/
def huntScopeVocabulary : List String :=
  ["all samples", "my samples", "public samples", "global", "private", "public"]

/-! ### Concrete fixtures used by the witness theorems -/

/-- A small two-page search fixture; `malware.foo` recurs across hits and
one hit has no `"tag"` key. -/
def demoPages : List (List Hit) :=
  [[{ tag := some ["malware.foo"] }],
   [{ tag := some ["malware.foo", "malware.bar"] }, { tag := none }]]

/-- The body the hunt pipeline builds for hash `"abc123"` at scope
`global`. -/
def demoBody : SearchBody :=
  construct_body "abc123" "alias.hash" 0 4000 "global"

/-- A healthy environment: init succeeds, every search returns
`demoPages`, every tag-detail and export call is 2xx. -/
def envAllOk : Env :=
  { initOk := true
    initErr := ""
    search := fun _ => Except.ok demoPages
    tagResp := fun t =>
      { http := { ok := true, errText := "" }
        tag := { description := "a tag", tag_name := t, public_tag_name := t, count := 7 } }
    «export» := { http := { ok := true, errText := "" }
                  daily_points_remaining := 100, daily_points := 200 } }

/-- Like `envAllOk` but the detail lookup for `malware.bar` returns a
non-2xx response. -/
def envTagFail : Env :=
  { envAllOk with
    tagResp := fun t =>
      { http := { ok := t != "malware.bar", errText := "404 Client Error" }
        tag := { description := "a tag", tag_name := t, public_tag_name := t, count := 7 } } }

/-- Like `envAllOk` but every tag-detail lookup fails validation. -/
def envAllTagsFail : Env :=
  { envAllOk with
    tagResp := fun t =>
      { http := { ok := false, errText := "404 Client Error" }
        tag := { description := "a tag", tag_name := t, public_tag_name := t, count := 7 } } }

/-- Like `envAllOk` but the search phase raises. -/
def envSearchErr : Env :=
  { envAllOk with search := fun _ => Except.error "500 Server Error" }

/-- Like `envAllOk` but the export call is non-2xx. -/
def envExportFail : Env :=
  { envAllOk with
    «export» := { http := { ok := false, errText := "403 Client Error" }
                  daily_points_remaining := 0, daily_points := 200 } }

/-! ### Helper lemmas about the aggregation set -/

/-- Membership after one `set.add`. -/
theorem mem_setAdd (s : List String) (t t' : String) :
    t' ∈ setAdd s t ↔ t' ∈ s ∨ t' = t := by
  unfold setAdd
  split
  · rename_i ht
    constructor
    · exact fun h => Or.inl h
    · rintro (h | rfl)
      · exact h
      · exact ht
  · simp [List.mem_append]

/-- Inserting with `set.add` keeps the set duplicate-free. -/
theorem nodup_setAdd (s : List String) (t : String) (h : s.Nodup) :
    (setAdd s t).Nodup := by
  unfold setAdd
  split
  · exact h
  · rename_i ht
    simp [List.nodup_append, h, ht]

/-- Membership after folding `set.add` over a tag list. -/
theorem mem_foldl_setAdd (tags : List String) (s : List String) (t : String) :
    t ∈ tags.foldl setAdd s ↔ t ∈ s ∨ t ∈ tags := by
  induction tags generalizing s with
  | nil => simp
  | cons a as ih =>
    simp only [List.foldl_cons, ih, mem_setAdd, List.mem_cons]
    tauto

/-- Folding `set.add` keeps the set duplicate-free. -/
theorem nodup_foldl_setAdd (tags : List String) (s : List String) (h : s.Nodup) :
    (tags.foldl setAdd s).Nodup := by
  induction tags generalizing s with
  | nil => exact h
  | cons a as ih => exact ih _ (nodup_setAdd s a h)

/-- Membership after processing one hit. -/
theorem mem_addHitTags (s : List String) (h : Hit) (t : String) :
    t ∈ addHitTags s h ↔ t ∈ s ∨ ∃ tags, h.tag = some tags ∧ t ∈ tags := by
  obtain ⟨tg⟩ := h
  cases tg with
  | none => simp [addHitTags]
  | some tags => simp [addHitTags, mem_foldl_setAdd]

/-- Processing one hit keeps the set duplicate-free. -/
theorem nodup_addHitTags (s : List String) (h : Hit) (hs : s.Nodup) :
    (addHitTags s h).Nodup := by
  obtain ⟨tg⟩ := h
  cases tg with
  | none => exact hs
  | some tags => exact nodup_foldl_setAdd tags s hs

/-- Membership after processing one page of hits. -/
theorem mem_foldl_addHitTags (page : List Hit) (s : List String) (t : String) :
    t ∈ page.foldl addHitTags s ↔
      t ∈ s ∨ ∃ h ∈ page, ∃ tags, h.tag = some tags ∧ t ∈ tags := by
  induction page generalizing s with
  | nil => simp
  | cons a hs ih =>
    simp only [List.foldl_cons, ih, mem_addHitTags, List.mem_cons]
    constructor
    · rintro (⟨h | h⟩ | ⟨h, hmem, htags⟩)
      · exact Or.inl h
      · exact Or.inr ⟨a, Or.inl rfl, h⟩
      · exact Or.inr ⟨h, Or.inr hmem, htags⟩
    · rintro (h | ⟨h, (rfl | hmem), htags⟩)
      · exact Or.inl (Or.inl h)
      · exact Or.inl (Or.inr htags)
      · exact Or.inr ⟨h, hmem, htags⟩

/-- Processing one page keeps the set duplicate-free. -/
theorem nodup_foldl_addHitTags (page : List Hit) (s : List String) (hs : s.Nodup) :
    (page.foldl addHitTags s).Nodup := by
  induction page generalizing s with
  | nil => exact hs
  | cons a rest ih => exact ih _ (nodup_addHitTags s a hs)

/-- Membership in the collected tag set, over all pages. -/
theorem mem_collectTags (pages : List (List Hit)) (t : String) :
    t ∈ collectTags pages ↔
      ∃ page ∈ pages, ∃ h ∈ page, ∃ tags, h.tag = some tags ∧ t ∈ tags := by
  unfold collectTags
  have key : ∀ (ps : List (List Hit)) (s : List String),
      t ∈ ps.foldl (fun s page => page.foldl addHitTags s) s ↔
        t ∈ s ∨ ∃ page ∈ ps, ∃ h ∈ page, ∃ tags, h.tag = some tags ∧ t ∈ tags := by
    intro ps
    induction ps with
    | nil => simp
    | cons p rest ih =>
      intro s
      simp only [List.foldl_cons, ih, mem_foldl_addHitTags, List.mem_cons]
      constructor
      · rintro (⟨h | h⟩ | ⟨pg, hmem, hrest⟩)
        · exact Or.inl h
        · exact Or.inr ⟨p, Or.inl rfl, h⟩
        · exact Or.inr ⟨pg, Or.inr hmem, hrest⟩
      · rintro (h | ⟨pg, (rfl | hmem), hrest⟩)
        · exact Or.inl (Or.inl h)
        · exact Or.inl (Or.inr hrest)
        · exact Or.inr ⟨pg, hmem, hrest⟩
  simp [key]

/-- The collected tag set is duplicate-free. -/
theorem nodup_collectTags (pages : List (List Hit)) :
    (collectTags pages).Nodup := by
  unfold collectTags
  have key : ∀ (ps : List (List Hit)) (s : List String), s.Nodup →
      (ps.foldl (fun s page => page.foldl addHitTags s) s).Nodup := by
    intro ps
    induction ps with
    | nil => exact fun s h => h
    | cons p rest ih =>
      intro s hs
      exact ih _ (nodup_foldl_addHitTags p s hs)
  exact key pages [] List.nodup_nil

/-! ### Helper lemmas about the enrichment loop -/

/-- The data accumulated by the enrichment loop is exactly the projection
of the tags whose detail lookup validates, in iteration order. -/
theorem enrichTags_data (env : Env) (tags : List String) (ar : ActionResult)
    (calls : List RemoteCall) :
    (enrichTags env tags ar calls).1.data =
      ar.data ++ (tags.filter (tagOk env)).map (tagRecordOf env) := by
  induction tags generalizing ar calls with
  | nil => simp [enrichTags]
  | cons a as ih =>
    unfold enrichTags at ih ⊢
    simp only [List.foldl_cons]
    by_cases h : (env.tagResp a).http.ok
    · simp only [enrichTag, validate_api_call, h, if_pos]
      rw [ih]
      simp [ActionResult.add_data, List.filter_cons, tagOk, h, tagRecordOf]
    · simp only [enrichTag, validate_api_call, h, if_neg, Bool.false_eq_true,
        not_false_eq_true, if_false]
      rw [ih]
      simp [ActionResult.set_status, List.filter_cons, tagOk, h]

/-- The enrichment loop issues exactly one tag-detail call per tag, in
iteration order, appended to the trace it starts from. -/
theorem enrichTags_calls (env : Env) (tags : List String) (ar : ActionResult)
    (calls : List RemoteCall) :
    (enrichTags env tags ar calls).2 = calls ++ tags.map RemoteCall.tagDetail := by
  induction tags generalizing ar calls with
  | nil => simp [enrichTags]
  | cons a as ih =>
    unfold enrichTags at ih ⊢
    simp only [List.foldl_cons]
    by_cases h : (env.tagResp a).http.ok
    · simp only [enrichTag, validate_api_call, h, if_pos]
      rw [ih]
      simp
    · simp only [enrichTag, validate_api_call, h, if_neg, Bool.false_eq_true,
        not_false_eq_true, if_false]
      rw [ih]
      simp

/-- Splitting the length of a list by a Boolean predicate. -/
theorem length_filter_add_length_filter_not {α : Type} (p : α → Bool) (l : List α) :
    (l.filter p).length + (l.filter (fun a => !(p a))).length = l.length := by
  induction l with
  | nil => rfl
  | cons a as ih =>
    cases h : p a with
    | true =>
      simp only [List.filter_cons, h, Bool.not_true, Bool.false_eq_true, if_false,
        if_true, List.length_cons]
      omega
    | false =>
      simp only [List.filter_cons, h, Bool.not_false, Bool.false_eq_true, if_false,
        if_true, List.length_cons]
      omega

/-- On a successful search, `_samples_search_tag` returns `APP_SUCCESS`,
the enriched action result with the summary recorded, and the trace of the
search call followed by the enrichment calls. -/
theorem samples_search_tag_ok (env : Env) (body : SearchBody)
    (pages : List (List Hit)) (ar : ActionResult)
    (hsearch : env.search body = Except.ok pages) :
    samples_search_tag env body ar =
      (true,
       (enrichTags env (collectTags pages) ar [RemoteCall.search body]).1.update_summary
         (enrichTags env (collectTags pages) ar [RemoteCall.search body]).1.get_data_size,
       (enrichTags env (collectTags pages) ar [RemoteCall.search body]).2) := by
  simp only [samples_search_tag, hsearch]

/-- On a failed search, `_samples_search_tag` returns `APP_ERROR`, the
error recorded on the action result, and only the search call in the
trace. -/
theorem samples_search_tag_err (env : Env) (body : SearchBody) (e : String)
    (ar : ActionResult) (hsearch : env.search body = Except.error e) :
    samples_search_tag env body ar =
      (false, ar.set_status false e, [RemoteCall.search body]) := by
  simp only [samples_search_tag, hsearch]

/-! ### The claims -/

/-- C3: for every search result — any number of pages, each with any
number of hits, each hit optionally carrying a tag list — the aggregated
tag set `collectTags pages` has no duplicate identifiers, and a tag is in
it exactly when some hit of some page carries a tag list containing it;
hits without a tag list contribute nothing. -/
theorem collectTags_nodup_and_exact_union (pages : List (List Hit)) (t : String) :
    (collectTags pages).Nodup ∧
    (t ∈ collectTags pages ↔
      ∃ page ∈ pages, ∃ h ∈ page, ∃ tags, h.tag = some tags ∧ t ∈ tags) :=
  ⟨nodup_collectTags pages, mem_collectTags pages t⟩

/-- C2: over the `N` unique tags aggregated from a successful search, if
`K` individual tag-detail lookups fail validation, each failing tag is
skipped without aborting the batch: the run still returns `APP_SUCCESS`,
exactly `N - K` TagRecords are produced, and `total_tags_matched` is
`N - K`. -/
theorem samples_search_tag_partial_failure (env : Env) (body : SearchBody)
    (pages : List (List Hit)) (hsearch : env.search body = Except.ok pages) :
    (samples_search_tag env body {}).1 = true ∧
    (samples_search_tag env body {}).2.1.data.length =
      (collectTags pages).length -
        ((collectTags pages).filter (fun t => !(tagOk env t))).length ∧
    (samples_search_tag env body {}).2.1.total_tags_matched =
      some ((collectTags pages).length -
        ((collectTags pages).filter (fun t => !(tagOk env t))).length) := by
  rw [samples_search_tag_ok env body pages {} hsearch]
  have hdata := enrichTags_data env (collectTags pages) {} [RemoteCall.search body]
  have hsplit := length_filter_add_length_filter_not (tagOk env) (collectTags pages)
  refine ⟨rfl, ?_, ?_⟩
  · simp [ActionResult.update_summary, hdata]
    omega
  · simp [ActionResult.update_summary, ActionResult.get_data_size, hdata]
    omega

/-- C2 witness: the fixture where the lookup of `malware.bar` fails —
two unique tags, one failure, one TagRecord, `total_tags_matched = 1`. -/
theorem samples_search_tag_partial_failure_witness :
    envTagFail.search demoBody = Except.ok demoPages ∧
    ((samples_search_tag envTagFail demoBody {}).1 = true ∧
     (samples_search_tag envTagFail demoBody {}).2.1.data.length =
       (collectTags demoPages).length -
         ((collectTags demoPages).filter (fun t => !(tagOk envTagFail t))).length ∧
     (samples_search_tag envTagFail demoBody {}).2.1.total_tags_matched =
       some ((collectTags demoPages).length -
         ((collectTags demoPages).filter (fun t => !(tagOk envTagFail t))).length)) :=
  ⟨rfl, samples_search_tag_partial_failure envTagFail demoBody demoPages rfl⟩

/-- C9: enrichment is order-insensitive in content — for a fixed
environment, running the enrichment loop over any two enumerations of the
same tag set (permutations of each other) yields data lists that are
permutations of each other (hence the same set of TagRecords) and the same
`total_tags_matched`. -/
theorem enrichTags_perm_invariant (env : Env) (tags₁ tags₂ : List String)
    (hperm : tags₁.Perm tags₂) :
    (enrichTags env tags₁ {} []).1.data.Perm (enrichTags env tags₂ {} []).1.data ∧
    ((enrichTags env tags₁ {} []).1.update_summary
        (enrichTags env tags₁ {} []).1.get_data_size).total_tags_matched =
      ((enrichTags env tags₂ {} []).1.update_summary
        (enrichTags env tags₂ {} []).1.get_data_size).total_tags_matched := by
  have h1 := enrichTags_data env tags₁ {} []
  have h2 := enrichTags_data env tags₂ {} []
  have hp : ((tags₁.filter (tagOk env)).map (tagRecordOf env)).Perm
      ((tags₂.filter (tagOk env)).map (tagRecordOf env)) :=
    (hperm.filter (tagOk env)).map (tagRecordOf env)
  constructor
  · rw [h1, h2]
    simpa using hp
  · simp only [ActionResult.update_summary, ActionResult.get_data_size, h1, h2]
    simp [hp.length_eq]

/-- C9 witness: the two enumeration orders of `{malware.foo, malware.bar}`
produce permuted data and equal summaries. -/
theorem enrichTags_perm_invariant_witness :
    (["malware.foo", "malware.bar"].Perm ["malware.bar", "malware.foo"]) ∧
    ((enrichTags envAllOk ["malware.foo", "malware.bar"] {} []).1.data.Perm
       (enrichTags envAllOk ["malware.bar", "malware.foo"] {} []).1.data ∧
     ((enrichTags envAllOk ["malware.foo", "malware.bar"] {} []).1.update_summary
         (enrichTags envAllOk ["malware.foo", "malware.bar"] {} []).1.get_data_size).total_tags_matched =
       ((enrichTags envAllOk ["malware.bar", "malware.foo"] {} []).1.update_summary
         (enrichTags envAllOk ["malware.bar", "malware.foo"] {} []).1.get_data_size).total_tags_matched) :=
  ⟨by decide, enrichTags_perm_invariant envAllOk _ _ (by decide)⟩

/-- C4: a hunt whose scope, after case normalization, is outside the
six-string vocabulary fails with `APP_ERROR`, the failure message names
the offending (normalized) scope value, and the trace of remote calls is
empty — the failure precedes any search or tag-detail call. -/
theorem hunt_action_invalid_scope_fails_fast (env : Env) (field : String)
    (s v : String) (hinit : env.initOk = true)
    (hs : strLower s ∉ huntScopeVocabulary) :
    (hunt_action env field { scope := some s, value := v }).1 = false ∧
    (hunt_action env field { scope := some s, value := v }).2.1.status = false ∧
    (hunt_action env field { scope := some s, value := v }).2.1.message =
      AF_ERR_INVALID_SCOPE (strLower s) ∧
    (∃ pre post,
      (hunt_action env field { scope := some s, value := v }).2.1.message =
        pre ++ strLower s ++ post) ∧
    (hunt_action env field { scope := some s, value := v }).2.2 = [] := by
  have hlook : SCOPE_MAP_lookup (strLower s) = none := by
    simp only [huntScopeVocabulary, List.mem_cons, List.not_mem_nil, or_false,
      not_or] at hs
    obtain ⟨h1, h2, h3, _⟩ := hs
    simp [SCOPE_MAP_lookup, h1, h2, h3]
  have hres : hunt_action env field { scope := some s, value := v } =
      (false, ({} : ActionResult).set_status false (AF_ERR_INVALID_SCOPE (strLower s)),
       []) := by
    simp [hunt_action, hinit, hlook, ActionResult.set_status]
  refine ⟨?_, ?_, ?_, ⟨"Invalid scope: ", "", ?_⟩, ?_⟩ <;>
    simp [hres, ActionResult.set_status, AF_ERR_INVALID_SCOPE]

/-- C4 witness: hunt-ip with scope `"bogus"` fails immediately, the
message names `"bogus"`, and no remote call is issued. -/
theorem hunt_action_invalid_scope_fails_fast_witness :
    envAllOk.initOk = true ∧ strLower "bogus" ∉ huntScopeVocabulary ∧
    ((hunt_action envAllOk "alias.ip_address"
        { scope := some "bogus", value := "1.2.3.4" }).1 = false ∧
     (hunt_action envAllOk "alias.ip_address"
        { scope := some "bogus", value := "1.2.3.4" }).2.1.status = false ∧
     (hunt_action envAllOk "alias.ip_address"
        { scope := some "bogus", value := "1.2.3.4" }).2.1.message =
       AF_ERR_INVALID_SCOPE (strLower "bogus") ∧
     (∃ pre post,
       (hunt_action envAllOk "alias.ip_address"
          { scope := some "bogus", value := "1.2.3.4" }).2.1.message =
         pre ++ strLower "bogus" ++ post) ∧
     (hunt_action envAllOk "alias.ip_address"
        { scope := some "bogus", value := "1.2.3.4" }).2.2 = []) :=
  ⟨rfl, by decide,
   hunt_action_invalid_scope_fails_fast envAllOk "alias.ip_address" "bogus" "1.2.3.4"
     rfl (by decide)⟩

/-- C5: if the search/aggregation phase raises, the whole hunt fails with
the message of that error and no TagRecord is in the result — tags collected
before the error are discarded. -/
theorem hunt_action_search_error_aborts (env : Env) (field : String)
    (param : HuntParam) (s e : String) (hinit : env.initOk = true)
    (hscope : SCOPE_MAP_lookup (strLower (param.scope.getD "All Samples")) = some s)
    (hsearch : env.search (construct_body param.value field 0 4000 s) =
      Except.error e) :
    (hunt_action env field param).1 = false ∧
    (hunt_action env field param).2.1.status = false ∧
    (hunt_action env field param).2.1.message = e ∧
    (hunt_action env field param).2.1.data = [] := by
  have hres : hunt_action env field param =
      (false, ({} : ActionResult).set_status false e,
       [RemoteCall.search (construct_body param.value field 0 4000 s)]) := by
    simp [hunt_action, hinit, hscope,
      samples_search_tag_err env _ e {} hsearch, ActionResult.set_status]
  refine ⟨?_, ?_, ?_, ?_⟩ <;> simp [hres, ActionResult.set_status]

/-- C5 witness: a hunt against `envSearchErr` (search raises
`"500 Server Error"`) fails with that message and an empty data list. -/
theorem hunt_action_search_error_aborts_witness :
    envSearchErr.initOk = true ∧
    SCOPE_MAP_lookup (strLower ((none : Option String).getD "All Samples")) =
      some "global" ∧
    envSearchErr.search (construct_body "abc123" "alias.hash" 0 4000 "global") =
      Except.error "500 Server Error" ∧
    ((hunt_action envSearchErr "alias.hash" { scope := none, value := "abc123" }).1 =
      false ∧
     (hunt_action envSearchErr "alias.hash"
        { scope := none, value := "abc123" }).2.1.status = false ∧
     (hunt_action envSearchErr "alias.hash"
        { scope := none, value := "abc123" }).2.1.message = "500 Server Error" ∧
     (hunt_action envSearchErr "alias.hash"
        { scope := none, value := "abc123" }).2.1.data = []) :=
  ⟨rfl, by decide, rfl,
   hunt_action_search_error_aborts envSearchErr "alias.hash"
     { scope := none, value := "abc123" } "global" "500 Server Error" rfl (by decide)
     rfl⟩

/-- A list filters to nil when the predicate fails on every element. -/
theorem filter_eq_nil_of_forall_false {α : Type} (p : α → Bool) (l : List α)
    (h : ∀ a ∈ l, p a = false) : l.filter p = [] := by
  induction l with
  | nil => rfl
  | cons a as ih =>
    rw [List.filter_cons, h a (List.mem_cons_self a as)]
    simp only [Bool.false_eq_true, if_false]
    exact ih (fun b hb => h b (List.mem_cons_of_mem a hb))

/-- C10: when init, scope resolution and the search succeed, the hunt ends
in `APP_SUCCESS` even if every per-tag detail lookup fails validation: the
result then carries zero TagRecords, `total_tags_matched = 0`, and the
error status/message set while skipping tags is overwritten by the final
success status (empty message). -/
theorem hunt_action_success_despite_skips (env : Env) (field : String)
    (param : HuntParam) (s : String) (pages : List (List Hit))
    (hinit : env.initOk = true)
    (hscope : SCOPE_MAP_lookup (strLower (param.scope.getD "All Samples")) = some s)
    (hsearch : env.search (construct_body param.value field 0 4000 s) =
      Except.ok pages)
    (hfail : ∀ t ∈ collectTags pages, tagOk env t = false) :
    (hunt_action env field param).1 = true ∧
    (hunt_action env field param).2.1.status = true ∧
    (hunt_action env field param).2.1.message = "" ∧
    (hunt_action env field param).2.1.data = [] ∧
    (hunt_action env field param).2.1.total_tags_matched = some 0 := by
  have hfilter : (collectTags pages).filter (tagOk env) = [] :=
    filter_eq_nil_of_forall_false (tagOk env) (collectTags pages) hfail
  have hdata := enrichTags_data env (collectTags pages) {}
    [RemoteCall.search (construct_body param.value field 0 4000 s)]
  rw [hfilter] at hdata
  simp only [List.map_nil, List.append_nil] at hdata
  have hsst := samples_search_tag_ok env
    (construct_body param.value field 0 4000 s) pages {} hsearch
  refine ⟨?_, ?_, ?_, ?_, ?_⟩ <;>
    simp [hunt_action, hinit, hscope, hsst, ActionResult.set_status,
      ActionResult.update_summary, ActionResult.get_data_size, hdata]

/-- C10 witness: against `envAllTagsFail` (every detail lookup non-2xx)
the hunt still succeeds, with no data and `total_tags_matched = 0`. -/
theorem hunt_action_success_despite_skips_witness :
    envAllTagsFail.initOk = true ∧
    SCOPE_MAP_lookup (strLower ((some "all samples" : Option String).getD
      "All Samples")) = some "global" ∧
    envAllTagsFail.search (construct_body "abc123" "alias.hash" 0 4000 "global") =
      Except.ok demoPages ∧
    (∀ t ∈ collectTags demoPages, tagOk envAllTagsFail t = false) ∧
    ((hunt_action envAllTagsFail "alias.hash"
        { scope := some "all samples", value := "abc123" }).1 = true ∧
     (hunt_action envAllTagsFail "alias.hash"
        { scope := some "all samples", value := "abc123" }).2.1.status = true ∧
     (hunt_action envAllTagsFail "alias.hash"
        { scope := some "all samples", value := "abc123" }).2.1.message = "" ∧
     (hunt_action envAllTagsFail "alias.hash"
        { scope := some "all samples", value := "abc123" }).2.1.data = [] ∧
     (hunt_action envAllTagsFail "alias.hash"
        { scope := some "all samples", value := "abc123" }).2.1.total_tags_matched =
       some 0) :=
  ⟨rfl, by decide, rfl, by decide,
   hunt_action_success_despite_skips envAllTagsFail "alias.hash"
     { scope := some "all samples", value := "abc123" } "global" demoPages rfl
     (by decide) rfl (by decide)⟩

/-- C1 (refuted): the claim says a hunt whose scope is the already
canonical `"global"` resolves and proceeds to the search; in the code the
`KeyError` handler membership test of `scope` in `SCOPE_MAP.values()`
guards only a `pass`, so the error return fires anyway: with a fully
healthy environment the action fails with the scope-validation message and
issues no remote call. -/
theorem hunt_action_rejects_canonical_global :
    hunt_action envAllOk "alias.ip_address"
        { scope := some "global", value := "1.2.3.4" } =
      (false,
       { status := false, message := "Invalid scope: global", data := [],
         total_tags_matched := none },
       []) := by
  decide

/-- C7: an action identifier outside the known set invokes no handler and
returns the default `APP_SUCCESS` — a silent no-op, regardless of what the
handlers would do. -/
theorem handle_action_unknown_noop (action : String) (run : HandlerCall → Bool)
    (h : action ∉ knownActions) :
    handle_action action run = (true, []) := by
  simp only [knownActions, List.mem_cons, List.not_mem_nil, or_false, not_or] at h
  obtain ⟨h1, h2, h3, h4, h5, h6⟩ := h
  simp [handle_action, h1, h2, h3, h4, h5, h6]

/-- C7 witness: the unrecognized identifier `"lookup hashes"` yields the
default success and an empty invocation list even when every handler would
fail. -/
theorem handle_action_unknown_noop_witness :
    "lookup hashes" ∉ knownActions ∧
    handle_action "lookup hashes" (fun _ => false) = (true, []) :=
  ⟨by decide, handle_action_unknown_noop "lookup hashes" (fun _ => false) (by decide)⟩

/-- C8: the connectivity test succeeds exactly when API initialization
succeeds and status validation of the export call passes; and on a non-2xx
export response the underlying error text is surfaced as a progress
message (before the final failure progress line) and the test fails with
no status message. -/
theorem test_connectivity_success_iff (env : Env) :
    ((test_connectivity env).1 = (env.initOk && env.«export».http.ok)) ∧
    (env.initOk = true → env.«export».http.ok = false →
      test_connectivity env =
        (false, "",
         ["Starting connectivity test", "Making a request to PAN AutoFocus",
          env.«export».http.errText, "Test Connectivity failed"])) := by
  constructor
  · by_cases hinit : env.initOk
    · by_cases hok : env.«export».http.ok
      · simp [test_connectivity, validate_api_call, hinit, hok]
      · simp only [Bool.not_eq_true] at hok
        simp [test_connectivity, validate_api_call, hinit, hok]
    · simp only [Bool.not_eq_true] at hinit
      simp [test_connectivity, hinit]
  · intro hinit hok
    simp [test_connectivity, validate_api_call, hinit, hok, ActionResult.set_status]

/-- C8 witness: with a 403 export response the test fails and the progress
log carries the error text ahead of the failure line. -/
theorem test_connectivity_success_iff_witness :
    envExportFail.initOk = true ∧ envExportFail.«export».http.ok = false ∧
    test_connectivity envExportFail =
      (false, "",
       ["Starting connectivity test", "Making a request to PAN AutoFocus",
        "403 Client Error", "Test Connectivity failed"]) :=
  ⟨rfl, rfl, by
    have h := (test_connectivity_success_iff envExportFail).2 rfl rfl
    simpa using h⟩

/-- C6: the query builder is total and exact — for every value, field and
scope, `construct_body value field 0 4000 scope` is precisely the request
body with `from = 0`, `size = 4000`, the fixed descending
`create_date` sort, and the single `contains` predicate — and whenever the
hunt pipeline issues a search call, its body was built by `construct_body`
with `start = 0` and `size = 4000` at the resolved scope. -/
theorem construct_body_exact_and_hunt_defaults :
    (∀ value field scope, construct_body value field 0 4000 scope =
      { scope := scope, start := 0, size := 4000, sort_field := "create_date",
        sort_order := "desc",
        query := { operator := "all",
                   children := [{ field := field, operator := "contains",
                                  value := value }] } }) ∧
    (∀ env field param body,
      RemoteCall.search body ∈ (hunt_action env field param).2.2 →
      ∃ s, SCOPE_MAP_lookup (strLower (param.scope.getD "All Samples")) = some s ∧
        body = construct_body param.value field 0 4000 s) := by
  constructor
  · intro value field scope
    rfl
  · intro env field param body hmem
    by_cases hinit : env.initOk
    · cases hscope : SCOPE_MAP_lookup (strLower (param.scope.getD "All Samples")) with
      | none =>
        simp [hunt_action, hinit, hscope] at hmem
      | some s =>
        refine ⟨s, rfl, ?_⟩
        cases hsearch : env.search (construct_body param.value field 0 4000 s) with
        | error e =>
          simp [hunt_action, hinit, hscope,
            samples_search_tag_err env _ e {} hsearch] at hmem
          exact hmem
        | ok pages =>
          simp [hunt_action, hinit, hscope,
            samples_search_tag_ok env _ pages {} hsearch, enrichTags_calls] at hmem
          exact hmem
    · simp only [Bool.not_eq_true] at hinit
      simp [hunt_action, hinit] at hmem

/-- C6 witness: in the healthy fixture the hunt issues exactly the search
body built at `start = 0`, `size = 4000` and resolved scope `global`. -/
theorem construct_body_exact_and_hunt_defaults_witness :
    RemoteCall.search demoBody ∈
      (hunt_action envAllOk "alias.hash"
        { scope := some "all samples", value := "abc123" }).2.2 ∧
    ∃ s, SCOPE_MAP_lookup (strLower ((some "all samples" : Option String).getD
        "All Samples")) = some s ∧
      demoBody = construct_body "abc123" "alias.hash" 0 4000 s :=
  ⟨by decide,
   construct_body_exact_and_hunt_defaults.2 envAllOk "alias.hash"
     { scope := some "all samples", value := "abc123" } demoBody (by decide)⟩
